import Mathlib

/-!
Verification development for summary_utils.py: a shallow embedding of the
SummaryEvaluator and SummaryModel classes, with theorems settling the
behavioural claims about them.  External collaborators (the rouge scorer,
nltk sentence_bleu, bert_score, the sentence transformer, the generation
pipeline and the tokenizer) are modelled as abstract function parameters;
everything written in the module itself is translated directly.
-/

/-- Names bound at module level of summary_utils.py, by its import statements
and its three class definitions.  Python resolves a bare global name against
these (then builtins); a global name absent from this list raises NameError.
Neither the name warnings nor the name torch is ever imported by the module. -/
def moduleNames : List String :=
  ["rouge_scorer", "sentence_bleu", "SmoothingFunction", "Dataset", "load_dataset",
   "pd", "bert_score", "SentenceTransformer", "util", "genai", "GenerativeModel",
   "userdata", "pipeline", "SummaryEvaluator", "DatasetManager", "SummaryModel"]

/-- Python exceptions that the embedded code can raise. -/
inductive PyError where
  | zeroDivision
  | nameError (missing : String)
  | attributeError
  | indexError
  deriving DecidableEq

/-- Resolution of a bare global name in the module: NameError when absent. -/
def moduleLookup (n : String) : Except PyError Unit :=
  if n ∈ moduleNames then .ok () else .error (.nameError n)

/-- One row of a Hugging Face Dataset as used by this module: iterating a
Dataset yields such records, and indexing with the string summary extracts
that column. -/
structure Example where
  document : String
  summary : String
  deriving DecidableEq

/-- A value flowing through an iteration in Python: either a plain string or a
Dataset row (a dict).  Generated summaries are iterated as given, so both
shapes can reach the per-pair scoring code. -/
abbrev Item := String ⊕ Example

/-- Either a raw list of strings or a Dataset, the two input shapes the
evaluator accepts for each argument. -/
inductive TextSeq where
  | strs (xs : List String)
  | dataset (rows : List Example)

/-- The isinstance(reference_summaries, Dataset) branch at the top of every
metric function: a Dataset is replaced by its summary column. -/
def coerceRefs : TextSeq → List String
  | .strs xs => xs
  | .dataset rows => rows.map Example.summary

/-- Iterating the generated argument as the source does, with no coercion:
strings stay strings, Dataset rows are consumed as rows. -/
def genItems : TextSeq → List Item
  | .strs xs => xs.map Sum.inl
  | .dataset rows => rows.map Sum.inr

/-- Accumulator for pySplit: runs of non-whitespace characters. -/
def pySplitAux : List Char → List Char → List String
  | [], acc => if acc = [] then [] else [String.mk acc.reverse]
  | c :: cs, acc =>
    if c.isWhitespace then
      if acc = [] then pySplitAux cs [] else String.mk acc.reverse :: pySplitAux cs []
    else pySplitAux cs (c :: acc)

/-- Python str.split() with no argument: split on runs of whitespace and drop
empty pieces (modelled over the common ASCII whitespace characters). -/
def pySplit (s : String) : List String := pySplitAux s.toList []

/-- Calling the method split() on an iterated item: fine on a string, but a
Dataset row is a dict and has no such attribute, so Python raises. -/
def itemSplit : Item → Except PyError (List String)
  | .inl s => .ok (pySplit s)
  | .inr _ => .error .attributeError

/-- A Python float that may be NaN (none models NaN). -/
abbrev PyFloat := Option ℚ

/-- torch tensor.mean().item(): NaN on an empty tensor, else the average. -/
def torchMean (xs : List ℚ) : PyFloat :=
  if xs.length = 0 then none else some (xs.sum / (xs.length : ℚ))

/-- torch tensor.diagonal() of a matrix given as rows: entries at matched row
and column index, stopping at the smaller dimension. -/
def torchDiagonal : List (List ℚ) → List ℚ
  | [] => []
  | row :: rest =>
    match row with
    | [] => []
    | x :: _ => x :: torchDiagonal (rest.map (fun r => r.drop 1))
termination_by m => m.length
decreasing_by simp only [List.length_map, List.length_cons]; omega

/-- The value stored in the results dict for one metric: the rouge metric
stores a dict of sub-metric F-measures, the others store a float. -/
inductive MetricValue where
  | subscores (d : List (String × ℚ))
  | num (q : ℚ)
  | nan
  deriving DecidableEq

/-- Wrap a possibly-NaN float as a stored metric value. -/
def pyFloatToMV : PyFloat → MetricValue
  | none => .nan
  | some q => .num q

/-- Python dict insertion into an insertion-ordered association list: an
existing key keeps its position and gets the new value, a new key is appended. -/
def dictInsert (results : List (String × MetricValue)) (k : String) (v : MetricValue) :
    List (String × MetricValue) :=
  if results.any (fun p => p.1 = k) then
    results.map (fun p => if p.1 = k then (k, v) else p)
  else results ++ [(k, v)]

/-- The evaluator: its configuration plus its external scoring collaborators,
which the module consumes as black boxes.  V is the embedding-vector type of
the sentence transformer.
rougeScore r g m is the F-measure of sub-metric m in rouge_scorer.score(r, g);
sentenceBleu refs hyp is nltk sentence_bleu with the smoothing function fixed
at construction; bertF1 cands refs is the per-pair F1 tensor of
bert_score.score; embed is the sentence transformer encoding of one text and
cosSim the cosine-similarity kernel of util.cos_sim. -/
structure SummaryEvaluator (V : Type) where
  rouge_metrics : List String
  rougeScore : String → Item → String → ℚ
  sentenceBleu : List (List String) → List String → ℚ
  bertF1 : List Item → List String → List ℚ
  embed : Item → V
  cosSim : V → V → ℚ

/-- The dict comprehension closing calculate_rouge: one entry per configured
sub-metric, each dividing by len(rouge_scores); with no pairs and at least one
sub-metric the division raises ZeroDivisionError.  (A duplicated sub-metric
name would be collapsed by the Python dict; it is kept as a duplicate entry
here, and every theorem below is indifferent to that corner.) -/
def rougeAvg (ms : List String) (scores : List (String → ℚ)) :
    Except PyError (List (String × ℚ)) :=
  match ms with
  | [] => .ok []
  | m :: rest =>
    if scores.length = 0 then .error .zeroDivision
    else
      match rougeAvg rest scores with
      | .error e => .error e
      | .ok tail => .ok ((m, (scores.map (fun s => s m)).sum / (scores.length : ℚ)) :: tail)

/-- SummaryEvaluator.calculate_rouge: coerce the reference argument if it is a
Dataset, score each zipped pair with the external rouge scorer, then average
each sub-metric F-measure over the pairs. -/
def calculate_rouge {V : Type} (E : SummaryEvaluator V) (refs gens : TextSeq) :
    Except PyError (List (String × ℚ)) :=
  let rs := coerceRefs refs
  let rouge_scores := (rs.zip (genItems gens)).map (fun p => fun m => E.rougeScore p.1 p.2 m)
  rougeAvg E.rouge_metrics rouge_scores

/-- The scoring loop of calculate_bleu: whitespace-tokenize both sides of each
pair (raising if the generated item is a Dataset row) and apply the external
smoothed sentence-level scorer. -/
def bleuLoop {V : Type} (E : SummaryEvaluator V) : List (String × Item) → Except PyError (List ℚ)
  | [] => .ok []
  | p :: rest =>
    match itemSplit p.2 with
    | .error e => .error e
    | .ok generated_tokens =>
      match bleuLoop E rest with
      | .error e => .error e
      | .ok scores => .ok (E.sentenceBleu [pySplit p.1] generated_tokens :: scores)

/-- SummaryEvaluator.calculate_bleu: per-pair smoothed scores, then
sum divided by count, which raises ZeroDivisionError on zero pairs. -/
def calculate_bleu {V : Type} (E : SummaryEvaluator V) (refs gens : TextSeq) :
    Except PyError ℚ :=
  let rs := coerceRefs refs
  match bleuLoop E (rs.zip (genItems gens)) with
  | .error e => .error e
  | .ok bleu_scores =>
    if bleu_scores.length = 0 then .error .zeroDivision
    else .ok (bleu_scores.sum / (bleu_scores.length : ℚ))

/-- SummaryEvaluator.calculate_bertscore: after the Dataset coercion the body
opens with warnings.catch_warnings(), and the bare name warnings is resolved
against the module globals, where it was never imported, so every call raises
NameError before any scoring.  The remaining statements (the external
bert_score.score call on (generated, references) and the tensor mean) are kept
but are unreachable. -/
def calculate_bertscore {V : Type} (E : SummaryEvaluator V) (refs gens : TextSeq) :
    Except PyError PyFloat :=
  let rs := coerceRefs refs
  match moduleLookup "warnings" with
  | .error e => .error e
  | .ok _ => .ok (torchMean (E.bertF1 (genItems gens) rs))

/-- SummaryEvaluator.calculate_vector_similarity: embed both batches with the
sentence transformer, form the pairwise cosine-similarity matrix with
util.cos_sim, then take the mean of its diagonal. -/
def calculate_vector_similarity {V : Type} (E : SummaryEvaluator V) (refs gens : TextSeq) :
    PyFloat :=
  let rs := coerceRefs refs
  let ref_embeddings := rs.map (fun r => E.embed (Sum.inl r))
  let gen_embeddings := (genItems gens).map E.embed
  let cosine_scores := ref_embeddings.map (fun u => gen_embeddings.map (fun v => E.cosSim u v))
  torchMean (torchDiagonal cosine_scores)

/-- The all_metrics dict of evaluate, in its insertion order. -/
def all_metrics (V : Type) :
    List (String × (SummaryEvaluator V → TextSeq → TextSeq → Except PyError MetricValue)) :=
  [("rouge", fun E r g => (calculate_rouge E r g).map MetricValue.subscores),
   ("bleu", fun E r g => (calculate_bleu E r g).map MetricValue.num),
   ("bertscore", fun E r g => (calculate_bertscore E r g).map pyFloatToMV),
   ("vector_similarity", fun E r g => .ok (pyFloatToMV (calculate_vector_similarity E r g)))]

/-- The for-loop of evaluate: a requested identifier found in all_metrics is
computed and stored (an exception propagating), an unknown identifier is
reported on the console and skipped.  Console output is not modelled. -/
def evalLoop {V : Type} (E : SummaryEvaluator V) (refs gens : TextSeq) :
    List String → List (String × MetricValue) → Except PyError (List (String × MetricValue))
  | [], results => .ok results
  | metric :: rest, results =>
    match (all_metrics V).lookup metric with
    | some f =>
      match f E refs gens with
      | .error e => .error e
      | .ok v => evalLoop E refs gens rest (dictInsert results metric v)
    | none => evalLoop E refs gens rest results

/-- SummaryEvaluator.evaluate: with metrics omitted, all four known
identifiers are requested in registry order. -/
def evaluate {V : Type} (E : SummaryEvaluator V) (refs gens : TextSeq)
    (metrics : Option (List String)) : Except PyError (List (String × MetricValue)) :=
  evalLoop E refs gens (metrics.getD ((all_metrics V).map Prod.fst)) []

/-- Python list slicing xs[:stop] with a possibly negative stop, as used by
the truncation policy (stop is budget minus one, an int). -/
def pySliceTo {α : Type} (stop : ℤ) (xs : List α) : List α :=
  if 0 ≤ stop then xs.take stop.toNat else xs.take (xs.length - (-stop).toNat)

/-- One candidate returned by the summarization pipeline call. -/
structure SummaryRecord where
  summary_text : String

/-- The SummaryModel instance: generation hyperparameters fixed at
construction, the model handle (type M), the tokenizer collaborator given by
its encode and decode functions, and the summarizer attribute, absent (none)
until default_summarizer would assign it.  P is the type of the external
pipeline object. -/
structure SummaryModel (M P : Type) where
  max_length : ℕ
  min_length : ℕ
  length_penalty : ℚ
  num_beams : ℕ
  early_stopping : Bool
  max_position_embeddings : ℕ
  model : M
  encode : String → List ℕ
  decode : List ℕ → String
  summarizer : Option P

/-- The external generation collaborators referenced from module scope by
default_summarizer: cuda availability, the transformers pipeline factory and
the invocation of a pipeline on a prompt with the named generation options. -/
structure GenWorld (M P : Type) where
  cuda_is_available : Bool
  mkPipeline : M → (String → List ℕ) → (List ℕ → String) → ℤ → P
  runPipeline : P → String → ℕ → ℕ → ℚ → ℕ → Bool → List SummaryRecord

/-- SummaryModel.default_prompt: prompt_template.format(document=document),
substituting the document for each placeholder occurrence. -/
def default_prompt {M P : Type} (_s : SummaryModel M P) (prompt_template document : String) :
    String :=
  String.intercalate document (prompt_template.splitOn "{document}")

/-- SummaryModel.default_document: identity unless the tokenized length
exceeds max_position_embeddings, in which case the token sequence is cut to
budget minus one tokens and decoded back. -/
def default_document {M P : Type} (s : SummaryModel M P) (original_document : String) :
    String :=
  let document := original_document
  if (s.encode document).length > s.max_position_embeddings then
    s.decode (pySliceTo ((s.max_position_embeddings : ℤ) - 1) (s.encode document))
  else document

/-- SummaryModel.default_summarizer: the first statement reads the bare global
name torch, which the module never imports, so every call raises NameError
with the instance untouched.  The remaining statements (assigning the
summarizer attribute and invoking the pipeline, taking candidate zero) are
kept but are unreachable. -/
def default_summarizer {M P : Type} (W : GenWorld M P) (s : SummaryModel M P)
    (prompt : String) : Except PyError String × SummaryModel M P :=
  match moduleLookup "torch" with
  | .error e => (.error e, s)
  | .ok _ =>
    let device : ℤ := if W.cuda_is_available then 0 else -1
    let p := W.mkPipeline s.model s.encode s.decode device
    let s1 := { s with summarizer := some p }
    match W.runPipeline p prompt s.max_length s.min_length s.length_penalty
        s.num_beams s.early_stopping with
    | [] => (.error .indexError, s1)
    | r :: _ => (.ok r.summary_text, s1)

/-- Lift a pure invocation policy (taking self and the prompt) to the fallible
state-threading shape that generate_summaries consumes. -/
def pureSummarizer {M P : Type} (f : SummaryModel M P → String → String) :
    SummaryModel M P → String → Except PyError String × SummaryModel M P :=
  fun s prompt => (.ok (f s prompt), s)

/-- Lift a pure document policy (taking self and the document). -/
def pureDocPolicy {M P : Type} (f : SummaryModel M P → String → String) :
    SummaryModel M P → String → Except PyError String × SummaryModel M P :=
  fun s doc => (.ok (f s doc), s)

/-- Lift a pure prompt policy (taking self, the template and the document). -/
def purePromptPolicy {M P : Type} (f : SummaryModel M P → String → String → String) :
    SummaryModel M P → String → String → Except PyError String × SummaryModel M P :=
  fun s tpl doc => (.ok (f s tpl doc), s)

/-- SummaryModel.generate_summaries: one pass over the dataset, applying the
document, prompt and invocation policies to each record in order and
collecting the summaries; any policy failure propagates at once, forfeiting
the summaries already produced.  The policies receive self explicitly, as the
source passes the unbound default methods; state threading makes every
attribute write visible.  Console progress output is not modelled. -/
def generate_summaries {M P : Type} (s : SummaryModel M P) (dataset : List Example)
    (prompt_template : String)
    (gen_summarizer : SummaryModel M P → String → Except PyError String × SummaryModel M P)
    (gen_document : SummaryModel M P → String → Except PyError String × SummaryModel M P)
    (gen_prompt : SummaryModel M P → String → String → Except PyError String × SummaryModel M P) :
    Except PyError (List String) × SummaryModel M P :=
  match dataset with
  | [] => (.ok [], s)
  | ex :: rest =>
    match gen_document s ex.document with
    | (.error e, s1) => (.error e, s1)
    | (.ok document, s1) =>
      match gen_prompt s1 prompt_template document with
      | (.error e, s2) => (.error e, s2)
      | (.ok prompt, s2) =>
        match gen_summarizer s2 prompt with
        | (.error e, s3) => (.error e, s3)
        | (.ok summary, s3) =>
          match generate_summaries s3 rest prompt_template gen_summarizer gen_document gen_prompt with
          | (.ok sums, s4) => (.ok (summary :: sums), s4)
          | (.error e, s4) => (.error e, s4)

/-- The per-pair scores of the translation-overlap metric on two raw string
lists, in pair order. -/
def bleuScoresOf {V : Type} (E : SummaryEvaluator V) (rs gs : List String) : List ℚ :=
  (rs.zip gs).map (fun p => E.sentenceBleu [pySplit p.1] (pySplit p.2))

/-- The per-pair F-measures of one rouge sub-metric on two raw string lists. -/
def rougeScoresOf {V : Type} (E : SummaryEvaluator V) (rs gs : List String) (m : String) :
    List ℚ :=
  (rs.zip gs).map (fun p => E.rougeScore p.1 (Sum.inl p.2) m)

/-- The matched-index cosine similarities on two raw string lists. -/
def vecScoresOf {V : Type} (E : SummaryEvaluator V) (rs gs : List String) : List ℚ :=
  (rs.zip gs).map (fun p => E.cosSim (E.embed (Sum.inl p.1)) (E.embed (Sum.inl p.2)))

/-- A stub evaluator over a trivial embedding space: the external rouge scorer
returns 0, the external sentence-level bleu scorer returns 1, cosine
similarity returns 0.  Used to exercise the dispatch and aggregation code on
concrete inputs. -/
def E1 : SummaryEvaluator Unit :=
  { rouge_metrics := ["rouge1"]
    rougeScore := fun _ _ _ => 0
    sentenceBleu := fun _ _ => 1
    bertF1 := fun _ _ => []
    embed := fun _ => ()
    cosSim := fun _ _ => 0 }

/-- A stub evaluator whose bleu collaborator scores the hypothesis tokens
x y z as 0 and everything else as 1, realizing the two-pair stub scenario. -/
def E2 : SummaryEvaluator Unit :=
  { rouge_metrics := ["rouge1"]
    rougeScore := fun _ _ _ => 1
    sentenceBleu := fun _ hyp => if hyp = ["x", "y", "z"] then 0 else 1
    bertF1 := fun _ _ => []
    embed := fun _ => ()
    cosSim := fun _ _ => 1 }

/-- A concrete generation world (never actually reached by the default
invocation policy, which fails on the torch lookup first). -/
def W0 : GenWorld Unit Unit :=
  { cuda_is_available := false
    mkPipeline := fun _ _ _ _ => ()
    runPipeline := fun _ _ _ _ _ _ _ => [⟨"out"⟩] }

/-- A concrete SummaryModel instance with a trivial tokenizer. -/
def wGen : SummaryModel Unit Unit :=
  { max_length := 150, min_length := 30, length_penalty := 2, num_beams := 4
    early_stopping := true, max_position_embeddings := 512, model := ()
    encode := fun _ => [], decode := fun _ => "", summarizer := none }

/-- A concrete SummaryModel whose tokenizer encodes a string as its character
codes and decodes codes back to characters, with a token budget of 3, used to
exercise the truncation policy. -/
def wModel : SummaryModel Unit Unit :=
  { max_length := 150, min_length := 30, length_penalty := 2, num_beams := 4
    early_stopping := true, max_position_embeddings := 3, model := ()
    encode := fun str => str.toList.map Char.toNat
    decode := fun ts => String.mk (ts.map Char.ofNat)
    summarizer := none }

/-- A concrete dataset row. -/
def ex0 : Example := { document := "doc text", summary := "sum text" }

lemma bleuLoop_strs {V : Type} (E : SummaryEvaluator V) (rs gs : List String) :
    bleuLoop E (rs.zip (gs.map Sum.inl)) = .ok (bleuScoresOf E rs gs) := by
  induction rs generalizing gs with
  | nil => simp [bleuLoop, bleuScoresOf]
  | cons r rs ih =>
    cases gs with
    | nil => simp [bleuLoop, bleuScoresOf]
    | cons g gs =>
      simp only [List.map_cons, List.zip_cons_cons, bleuLoop, itemSplit]
      rw [show List.zipWith Prod.mk rs (List.map Sum.inl gs)
            = rs.zip (List.map Sum.inl gs) from rfl, ih gs]
      simp [bleuScoresOf]

lemma rougeAvg_nonempty (ms : List String) (scores : List (String → ℚ)) (h : scores ≠ []) :
    rougeAvg ms scores =
      .ok (ms.map (fun m => (m, (scores.map (fun s => s m)).sum / (scores.length : ℚ)))) := by
  induction ms with
  | nil => simp [rougeAvg]
  | cons m ms ih =>
    have hlen : scores.length ≠ 0 := by simpa [List.length_eq_zero] using h
    simp [rougeAvg, hlen, ih]

lemma rougeAvg_zero (ms : List String) (h : ms ≠ []) : rougeAvg ms [] = .error .zeroDivision := by
  cases ms with
  | nil => exact absurd rfl h
  | cons m rest => simp [rougeAvg]

lemma diag_pairwise {α β : Type} (f : α → β → ℚ) (as : List α) (bs : List β) :
    torchDiagonal (as.map (fun a => bs.map (f a))) = (as.zip bs).map (fun p => f p.1 p.2) := by
  induction as generalizing bs with
  | nil => simp [torchDiagonal]
  | cons a as ih =>
    cases bs with
    | nil => simp [torchDiagonal]
    | cons b bs =>
      simp only [List.map_cons, torchDiagonal, List.zip_cons_cons]
      congr 1
      rw [List.map_map]
      have h2 : ((fun r => List.drop 1 r) ∘ fun a => f a b :: List.map (f a) bs)
          = fun a => List.map (f a) bs := by
        funext x; simp
      rw [h2, ih]

lemma vecSim_eq {V : Type} (E : SummaryEvaluator V) (refs gens : TextSeq) :
    calculate_vector_similarity E refs gens =
      torchMean (((coerceRefs refs).zip (genItems gens)).map
        (fun p => E.cosSim (E.embed (Sum.inl p.1)) (E.embed p.2))) := by
  simp only [calculate_vector_similarity]
  rw [diag_pairwise, List.zip_map, List.map_map]
  rfl

lemma gen_pure_eq {M P : Type} (fs : SummaryModel M P → String → String)
    (fd : SummaryModel M P → String → String)
    (fp : SummaryModel M P → String → String → String)
    (s : SummaryModel M P) (tpl : String) (ds : List Example) :
    generate_summaries s ds tpl (pureSummarizer fs) (pureDocPolicy fd) (purePromptPolicy fp)
      = (.ok (ds.map (fun ex => fs s (fp s tpl (fd s ex.document)))), s) := by
  induction ds with
  | nil => simp [generate_summaries]
  | cons ex rest ih =>
    simp [generate_summaries, pureSummarizer, pureDocPolicy, purePromptPolicy, ih]

lemma gen_default_frame {M P : Type} (W : GenWorld M P) (s : SummaryModel M P)
    (ds : List Example) (tpl : String) :
    (generate_summaries s ds tpl (default_summarizer W)
      (pureDocPolicy default_document) (purePromptPolicy default_prompt)).2 = s := by
  cases ds with
  | nil => rfl
  | cons ex rest =>
    have htorch : moduleLookup "torch" = .error (.nameError "torch") := rfl
    simp [generate_summaries, pureDocPolicy, purePromptPolicy, default_summarizer, htorch]

lemma calculate_bleu_strs {V : Type} (E : SummaryEvaluator V) (rs gs : List String) :
    calculate_bleu E (.strs rs) (.strs gs) =
      if (bleuScoresOf E rs gs).length = 0 then .error .zeroDivision
      else .ok ((bleuScoresOf E rs gs).sum / ((bleuScoresOf E rs gs).length : ℚ)) := by
  simp [calculate_bleu, coerceRefs, genItems, bleuLoop_strs]

lemma rouge_scores_map {V : Type} (E : SummaryEvaluator V) (rs gs : List String) (m : String) :
    ((rs.zip (gs.map Sum.inl)).map (fun p => fun mm => E.rougeScore p.1 p.2 mm)).map
        (fun s => s m) = rougeScoresOf E rs gs m := by
  rw [List.zip_map_right, List.map_map, List.map_map]
  rfl

lemma calculate_rouge_strs {V : Type} (E : SummaryEvaluator V) (rs gs : List String)
    (h : rs.zip gs ≠ []) :
    calculate_rouge E (.strs rs) (.strs gs) =
      .ok (E.rouge_metrics.map (fun m =>
        (m, (rougeScoresOf E rs gs m).sum / (((rs.zip gs).length : ℕ) : ℚ)))) := by
  have hne : (rs.zip (gs.map Sum.inl)).map (fun p => fun mm => E.rougeScore p.1 p.2 mm) ≠ [] := by
    simp only [ne_eq, List.map_eq_nil_iff, List.zip_map_right, List.map_eq_nil_iff]
    exact h
  have hlen : ((rs.zip (gs.map Sum.inl)).map (fun p => fun mm => E.rougeScore p.1 p.2 mm)).length
      = (rs.zip gs).length := by
    simp [List.zip_map_right]
  simp only [calculate_rouge, coerceRefs, genItems]
  rw [rougeAvg_nonempty _ _ hne]
  simp only [rouge_scores_map, hlen]

lemma calculate_vector_strs {V : Type} (E : SummaryEvaluator V) (rs gs : List String) :
    calculate_vector_similarity E (.strs rs) (.strs gs) = torchMean (vecScoresOf E rs gs) := by
  rw [vecSim_eq]
  simp only [coerceRefs, genItems]
  rw [List.zip_map_right, List.map_map]
  rfl

lemma bleuScoresOf_nil {V : Type} (E : SummaryEvaluator V) (rs gs : List String)
    (h : rs = [] ∨ gs = []) : bleuScoresOf E rs gs = [] := by
  cases h with
  | inl h => simp [bleuScoresOf, h]
  | inr h => simp [bleuScoresOf, h]

lemma zip_ne_nil (rs gs : List String) (h1 : rs ≠ []) (h2 : gs ≠ []) : rs.zip gs ≠ [] := by
  cases rs with
  | nil => exact absurd rfl h1
  | cons a as =>
    cases gs with
    | nil => exact absurd rfl h2
    | cons b bs => simp

/-- Claim C1 counterexample: on mismatched-length input (two references, one
generated summary) evaluate does not fail with any alignment error; it
succeeds and returns a bleu aggregate computed over the zipped (shorter)
length, so the claim as stated is false. -/
theorem evaluate_mismatched_returns_result :
    (["a", "b"] : List String).length ≠ (["c"] : List String).length
  ∧ evaluate E1 (.strs ["a", "b"]) (.strs ["c"]) (some ["bleu"]) = .ok [("bleu", .num 1)] := by
  refine ⟨by simp, ?_⟩
  simp [evaluate, evalLoop, all_metrics, List.lookup, calculate_bleu, bleuLoop, itemSplit,
    coerceRefs, genItems, dictInsert, E1, pySplit, pySplitAux, Except.map]

/-- Claim C1 (amended): evaluate performs no alignment validation.  On
zero-length input a requested bleu (or rouge, with a nonempty sub-metric
configuration) metric fails with ZeroDivisionError from the mean, not an
alignment error, while a request for only the vector-similarity metric on
empty input succeeds and returns a NaN aggregate; on mismatched nonzero
lengths the call does not fail at all: the sequences are silently zipped to
the shorter length and the mean over those pairs is returned. -/
theorem evaluate_no_alignment_check {V : Type} (E : SummaryEvaluator V) (rs gs : List String) :
    ((rs = [] ∨ gs = []) →
        evaluate E (.strs rs) (.strs gs) (some ["bleu"]) = .error .zeroDivision
      ∧ (E.rouge_metrics ≠ [] →
          evaluate E (.strs rs) (.strs gs) (some ["rouge"]) = .error .zeroDivision))
    ∧ (evaluate E (.strs []) (.strs []) (some ["vector_similarity"])
        = .ok [("vector_similarity", .nan)])
    ∧ (rs ≠ [] → gs ≠ [] →
        evaluate E (.strs rs) (.strs gs) (some ["bleu"])
          = .ok [("bleu", .num ((bleuScoresOf E rs gs).sum /
              ((bleuScoresOf E rs gs).length : ℚ)))]) := by
  refine ⟨?_, ?_, ?_⟩
  · intro h
    constructor
    · have hb : bleuScoresOf E rs gs = [] := bleuScoresOf_nil E rs gs h
      simp [evaluate, evalLoop, all_metrics, List.lookup, calculate_bleu_strs, hb, Except.map]
    · intro hms
      have hz : rs.zip (gs.map (Sum.inl : String → Item)) = [] := by
        cases h with
        | inl h => simp [h]
        | inr h => simp [h]
      simp [evaluate, evalLoop, all_metrics, List.lookup, calculate_rouge, coerceRefs,
        genItems, hz, rougeAvg_zero _ hms, Except.map]
  · simp [evaluate, evalLoop, all_metrics, List.lookup, calculate_vector_similarity,
      coerceRefs, genItems, torchDiagonal, torchMean, dictInsert, pyFloatToMV]
  · intro h1 h2
    have hlen : (bleuScoresOf E rs gs).length ≠ 0 := by
      simp only [ne_eq, List.length_eq_zero, bleuScoresOf, List.map_eq_nil_iff]
      exact zip_ne_nil rs gs h1 h2
    simp [evaluate, evalLoop, all_metrics, List.lookup, dictInsert, calculate_bleu_strs,
      hlen, Except.map]

/-- Claim C1 witness: a concrete mismatched pair (one reference, two generated
summaries) on which the amended theorem applies, producing a returned result
with the E1 stub scorer. -/
theorem evaluate_no_alignment_check_witness :
    (["a"] : List String) ≠ [] ∧ (["b", "c"] : List String) ≠ []
  ∧ evaluate E1 (.strs ["a"]) (.strs ["b", "c"]) (some ["bleu"]) = .ok [("bleu", .num 1)] := by
  refine ⟨by simp, by simp, ?_⟩
  have h := (evaluate_no_alignment_check E1 ["a"] ["b", "c"]).2.2 (by simp) (by simp)
  rw [h]
  have hb : bleuScoresOf E1 ["a"] ["b", "c"] = [1] := rfl
  rw [hb]
  norm_num

/-- Claim C2: on equal-length nonzero inputs of length N, the bleu aggregate
is the arithmetic mean of exactly the N per-pair scores, each rouge sub-metric
aggregate is the arithmetic mean of exactly the N per-pair F-measures, and the
vector-similarity aggregate is the arithmetic mean of exactly the N
matched-index cosine similarities. -/
theorem metric_mean_over_all_pairs {V : Type} (E : SummaryEvaluator V) (rs gs : List String)
    (hlen : rs.length = gs.length) (hne : rs ≠ []) :
    (calculate_bleu E (.strs rs) (.strs gs)
        = .ok ((bleuScoresOf E rs gs).sum / (rs.length : ℚ))
      ∧ (bleuScoresOf E rs gs).length = rs.length)
  ∧ (calculate_rouge E (.strs rs) (.strs gs)
        = .ok (E.rouge_metrics.map (fun m =>
            (m, (rougeScoresOf E rs gs m).sum / (rs.length : ℚ))))
      ∧ ∀ m, (rougeScoresOf E rs gs m).length = rs.length)
  ∧ (calculate_vector_similarity E (.strs rs) (.strs gs)
        = some ((vecScoresOf E rs gs).sum / (rs.length : ℚ))
      ∧ (vecScoresOf E rs gs).length = rs.length) := by
  have hgne : gs ≠ [] := by
    intro hg
    rw [hg] at hlen
    simp only [List.length_nil, List.length_eq_zero] at hlen
    exact hne hlen
  have hzlen : (rs.zip gs).length = rs.length := by
    simp [List.length_zip, hlen]
  have hblen : (bleuScoresOf E rs gs).length = rs.length := by
    simp [bleuScoresOf, hzlen]
  have hnz : (bleuScoresOf E rs gs).length ≠ 0 := by
    rw [hblen]
    simp only [ne_eq, List.length_eq_zero]
    exact hne
  refine ⟨⟨?_, hblen⟩, ⟨?_, ?_⟩, ⟨?_, ?_⟩⟩
  · rw [calculate_bleu_strs, if_neg hnz, hblen]
  · rw [calculate_rouge_strs E rs gs (zip_ne_nil rs gs hne hgne), hzlen]
  · intro m
    simp [rougeScoresOf, hzlen]
  · rw [calculate_vector_strs]
    have hvlen : (vecScoresOf E rs gs).length = rs.length := by
      simp [vecScoresOf, hzlen]
    rw [torchMean, if_neg (by rw [hvlen]; simpa [List.length_eq_zero] using hne), hvlen]
  · simp [vecScoresOf, hzlen]

/-- Claim C2 witness: the stub scenario from the specification, a two-pair
corpus whose stub scorer gives 0 to the first pair and 1 to the second; the
bleu aggregate is exactly one half. -/
theorem metric_mean_over_all_pairs_witness :
    (["a b c", "d e f"] : List String).length = (["x y z", "d e f"] : List String).length
  ∧ (["a b c", "d e f"] : List String) ≠ []
  ∧ calculate_bleu E2 (.strs ["a b c", "d e f"]) (.strs ["x y z", "d e f"])
      = .ok (1/2) := by
  refine ⟨rfl, by simp, ?_⟩
  have h := (metric_mean_over_all_pairs E2 ["a b c", "d e f"] ["x y z", "d e f"]
    rfl (by simp)).1.1
  rw [h]
  have hb : bleuScoresOf E2 ["a b c", "d e f"] ["x y z", "d e f"] = [0, 1] := rfl
  rw [hb]
  norm_num

/-- Claim C3: evaluating with metrics omitted never returns a report at all on
this module: the loop reaches the bertscore metric, whose body raises
NameError (the module never imports warnings), and the same error is produced
under a permuted explicit request for all four identifiers; the selection
equivalence the claim describes is unobservable because neither call returns. -/
theorem evaluate_default_metrics_name_error :
    evaluate E1 (.strs ["a"]) (.strs ["b"]) none = .error (.nameError "warnings")
  ∧ evaluate E1 (.strs ["a"]) (.strs ["b"])
      (some ["vector_similarity", "bertscore", "bleu", "rouge"])
      = .error (.nameError "warnings") :=
  ⟨rfl, rfl⟩

/-- Claim C4: the default truncation policy is the identity whenever the
tokenized length is within the budget; on an over-budget document (with a
budget of at least one) the result is the decode of the first budget minus one
tokens, and when the tokenizer round-trips that prefix the token length of the
result is exactly budget minus one. -/
theorem default_document_truncation {M P : Type} (s : SummaryModel M P) (doc : String) :
    ((s.encode doc).length ≤ s.max_position_embeddings → default_document s doc = doc)
  ∧ (1 ≤ s.max_position_embeddings →
      s.max_position_embeddings < (s.encode doc).length →
      default_document s doc
          = s.decode ((s.encode doc).take (s.max_position_embeddings - 1))
        ∧ (s.encode (s.decode ((s.encode doc).take (s.max_position_embeddings - 1)))
              = (s.encode doc).take (s.max_position_embeddings - 1) →
            (s.encode (default_document s doc)).length = s.max_position_embeddings - 1)) := by
  constructor
  · intro h
    simp only [default_document]
    rw [if_neg (by omega)]
  · intro h1 h2
    have htn : ((s.max_position_embeddings : ℤ) - 1).toNat = s.max_position_embeddings - 1 := by
      omega
    have hmain : default_document s doc
        = s.decode ((s.encode doc).take (s.max_position_embeddings - 1)) := by
      simp only [default_document, pySliceTo]
      rw [if_pos (by omega), if_pos (by omega), htn]
    refine ⟨hmain, fun hrt => ?_⟩
    rw [hmain, hrt, List.length_take]
    omega

/-- Claim C4 witness: with a character-code tokenizer and budget 3, a 2-token
document is returned unchanged, and a 5-token document is truncated to the
decoded 2-token prefix, whose token length is 2. -/
theorem default_document_truncation_witness :
    ((wModel.encode "ab").length ≤ wModel.max_position_embeddings
      ∧ default_document wModel "ab" = "ab")
  ∧ (1 ≤ wModel.max_position_embeddings
      ∧ wModel.max_position_embeddings < (wModel.encode "abcde").length
      ∧ default_document wModel "abcde"
          = wModel.decode ((wModel.encode "abcde").take (wModel.max_position_embeddings - 1))
      ∧ (wModel.encode (default_document wModel "abcde")).length
          = wModel.max_position_embeddings - 1) := by
  refine ⟨⟨by decide, (default_document_truncation wModel "ab").1 (by decide)⟩,
    by decide, by decide,
    ((default_document_truncation wModel "abcde").2 (by decide) (by decide)).1,
    ((default_document_truncation wModel "abcde").2 (by decide) (by decide)).2 (by decide)⟩

/-- Claim C5: a call to generate_summaries leaves every field of the
SummaryModel instance unchanged, both with the default policies (where the
default invocation policy fails on the torch lookup before its summarizer
attribute assignment can run) and with any pure substituted policies. -/
theorem generate_summaries_state_frame :
    (∀ (M P : Type) (W : GenWorld M P) (s : SummaryModel M P) (ds : List Example) (tpl : String),
        (generate_summaries s ds tpl (default_summarizer W)
          (pureDocPolicy default_document) (purePromptPolicy default_prompt)).2 = s)
  ∧ (∀ (M P : Type) (fs : SummaryModel M P → String → String)
        (fd : SummaryModel M P → String → String)
        (fp : SummaryModel M P → String → String → String)
        (s : SummaryModel M P) (ds : List Example) (tpl : String),
        (generate_summaries s ds tpl (pureSummarizer fs) (pureDocPolicy fd)
          (purePromptPolicy fp)).2 = s) :=
  ⟨fun _ _ W s ds tpl => gen_default_frame W s ds tpl,
   fun _ _ fs fd fp s ds tpl => by rw [gen_pure_eq]⟩

/-- Claim C6: a metrics request mixing an unknown identifier with the known
bertscore identifier does not succeed: the unknown item is skipped with a
console warning as claimed, but the call then aborts with NameError inside
the bertscore metric, returning no report at all. -/
theorem evaluate_unknown_metric_bertscore_error :
    evaluate E1 (.strs ["a"]) (.strs ["b"]) (some ["not_a_metric", "bertscore"])
      = .error (.nameError "warnings") := rfl

/-- Claim C7: the vector-similarity metric equals the mean of exactly the
matched-index entries of the pairwise cosine-similarity matrix: reference i
against generated i, never any cross pair. -/
theorem vector_similarity_diagonal_mean {V : Type} (E : SummaryEvaluator V)
    (refs gens : TextSeq) :
    calculate_vector_similarity E refs gens =
      torchMean (((coerceRefs refs).zip (genItems gens)).map
        (fun p => E.cosSim (E.embed (Sum.inl p.1)) (E.embed p.2))) :=
  vecSim_eq E refs gens

/-- Claim C8: evaluation of generate_summaries at a one-document dataset with
its default policy arguments: the default invocation policy raises NameError
on the unimported global torch before any summary is produced, so no output
sequence is returned. -/
theorem generate_summaries_default_name_error :
    (generate_summaries wGen [ex0] "summarize: {document}" (default_summarizer W0)
      (pureDocPolicy default_document) (purePromptPolicy default_prompt)).1
      = .error (.nameError "torch") := rfl

/-- Order preservation of the generation loop under succeeding policies: with
pure document, prompt and invocation policies the result is exactly the input
documents mapped in order through document policy, prompt policy and
invocation policy, one summary per document. -/
theorem generate_summaries_order_preserved {M P : Type}
    (fs fd : SummaryModel M P → String → String)
    (fp : SummaryModel M P → String → String → String)
    (s : SummaryModel M P) (ds : List Example) (tpl : String) :
    generate_summaries s ds tpl (pureSummarizer fs) (pureDocPolicy fd) (purePromptPolicy fp)
        = (.ok (ds.map (fun ex => fs s (fp s tpl (fd s ex.document)))), s)
    ∧ (ds.map (fun ex => fs s (fp s tpl (fd s ex.document)))).length = ds.length :=
  ⟨gen_pure_eq fs fd fp s tpl ds, by simp⟩

/-- Claim C9: every call of calculate_bertscore raises NameError on the name
warnings, for every evaluator and every pair of inputs, before any scoring. -/
theorem calculate_bertscore_always_name_error {V : Type} (E : SummaryEvaluator V)
    (refs gens : TextSeq) :
    calculate_bertscore E refs gens = .error (.nameError "warnings") := rfl

/-- Claim C10: in every metric function a Dataset passed as the reference
argument is coerced to its summary column (the call is indistinguishable from
passing that column directly), while a Dataset passed as the generated
argument is consumed as-is and not coerced: concretely, calculate_bleu on a
generated Dataset raises AttributeError where the coerced column succeeds. -/
theorem dataset_coercion_reference_only :
    (∀ (V : Type) (E : SummaryEvaluator V) (rows : List Example) (gens : TextSeq),
        calculate_rouge E (.dataset rows) gens
            = calculate_rouge E (.strs (rows.map Example.summary)) gens
      ∧ calculate_bleu E (.dataset rows) gens
            = calculate_bleu E (.strs (rows.map Example.summary)) gens
      ∧ calculate_bertscore E (.dataset rows) gens
            = calculate_bertscore E (.strs (rows.map Example.summary)) gens
      ∧ calculate_vector_similarity E (.dataset rows) gens
            = calculate_vector_similarity E (.strs (rows.map Example.summary)) gens)
  ∧ calculate_bleu E1 (.strs ["r"]) (.dataset [ex0]) = .error .attributeError
  ∧ calculate_bleu E1 (.strs ["r"]) (.strs ([ex0].map Example.summary)) = .ok 1 := by
  refine ⟨fun V E rows gens => ⟨rfl, rfl, rfl, rfl⟩, rfl, ?_⟩
  have hb : bleuLoop E1 [("r", (Sum.inl ex0.summary : Item))] = .ok [1] := rfl
  simp [calculate_bleu, coerceRefs, genItems, hb]
